import Mathlib

/-!
# A shallow embedding of `tilt2mqtt.py`

This file embeds the decode/calibrate/transform/format pipeline of the
`tilt2mqtt` script (source file `src/tilt2mqtt.py`) into Lean 4 and proves
properties of it.

Modelling conventions:
* Python floats (IEEE doubles) are modelled as exact rationals (`Rat`).
  All numeric values appearing in the claims are far from rounding-tie
  boundaries, so the rational model agrees with the double-precision
  computation at every input considered here.
* Python dictionaries are modelled as association lists; a subscript on a
  missing key yields `PyErr.keyError`, mirroring Python `KeyError`.
* Python exceptions are modelled with `Except PyErr`; a `try/except KeyError`
  block catches exactly `PyErr.keyError` and lets other errors propagate.
* `LOG.info` / `LOG.error` call sites are modelled as `LogEvent`s accumulated
  in the result; the bare `print` on line 110 writes to stdout, which the
  spec explicitly excludes from the stable interface, so it is not a log
  event here.
-/

attribute [local semireducible] Rat.add Rat.mul Rat.sub Rat.inv Rat.ofScientific

deriving instance DecidableEq for Except

/-- Python exception classes that the script can raise or catch:
`KeyError` (missing dict key), `ValueError` (e.g. `float` of a non-numeric
string, `ast.literal_eval` of a malformed literal) and `TypeError`
(e.g. subscripting a non-dict, adding a non-number). -/
inductive PyErr where
  | keyError
  | valueError
  | typeError
deriving DecidableEq, Repr

/-- A value stored in the `additional_info` dict handed to the callback by
the beacon scanner: an integer (the normal case for `major`/`minor`) or a
string (a malformed field). -/
inductive FieldVal where
  | int (n : Int)
  | str (s : String)
deriving DecidableEq, Repr

/-- The `additional_info` argument of `callback`: a dict whose relevant keys
are `uuid`, `major` and `minor`; `Option.none` models an absent key. -/
structure AdditionalInfo where
  uuid : Option String
  major : Option FieldVal
  minor : Option FieldVal
deriving DecidableEq, Repr

/-- A Python object produced by `ast.literal_eval`: `None`, booleans,
numbers, strings, lists and dicts (restricted to string keys, which is the
only key shape the script ever uses). Floats are modelled as rationals. -/
inductive PyObj where
  | none
  | bool (b : Bool)
  | int (n : Int)
  | float (q : Rat)
  | str (s : String)
  | list (elems : List PyObj)
  | dict (entries : List (String × PyObj))

/-- Log events, one constructor per `LOG.*` call site of the script:
`LOG.info(additional_info)` on line 106, the
"Unable to decode tilt color" `LOG.error` on line 117, and the
"Device does not look like a Tilt Hydrometer" `LOG.error` on line 152. -/
inductive LogEvent where
  | infoAdditional (info : AdditionalInfo)
  | errorColor (info : AdditionalInfo)
  | errorHydro
deriving DecidableEq, Repr

/-- Whether a log event was emitted at `error` level. -/
def LogEvent.isError : LogEvent → Bool
  | .infoAdditional _ => false
  | .errorColor _ => true
  | .errorHydro => true

/-- Dict subscript `d[k]` on a string-keyed dict modelled as an association
list: `KeyError` when the key is absent. -/
def dictGet {α : Type} (d : List (String × α)) (k : String) : Except PyErr α :=
  match d.find? (fun e => e.1 == k) with
  | Option.none => .error .keyError
  | some e => .ok e.2

/-- Dict subscript on an `additional_info` field: `KeyError` when absent. -/
def getField {α : Type} (v : Option α) : Except PyErr α :=
  match v with
  | some x => .ok x
  | Option.none => .error .keyError

/-- Numeric value of a list of decimal digit characters. -/
def digitsToNat (l : List Char) : Nat :=
  l.foldl (fun a c => 10 * a + (c.toNat - 48)) 0

/-- Parse a decimal numeral string (optional sign, integer digits, optional
fractional part) as an exact rational; `Option.none` on anything else.
This is the model of what Python `float(s)` accepts from the strings that
matter here (it rejects e.g. `"abc"`). -/
def strToRat? (s : String) : Option Rat :=
  let l := s.toList
  let signAndRest : Bool × List Char :=
    match l with
    | '-' :: t => (true, t)
    | '+' :: t => (false, t)
    | t => (false, t)
  let neg := signAndRest.1
  let body := signAndRest.2
  let ip := body.takeWhile Char.isDigit
  let rest := body.dropWhile Char.isDigit
  let mag? : Option Rat :=
    match rest with
    | [] => if ip.isEmpty then Option.none else some (digitsToNat ip : Rat)
    | '.' :: fr =>
      if fr.all Char.isDigit ∧ ¬ (ip.isEmpty ∧ fr.isEmpty) then
        some ((digitsToNat ip : Rat) + (digitsToNat fr : Rat) / (10 : Rat) ^ fr.length)
      else Option.none
    | _ => Option.none
  match mag? with
  | some q => some (if neg then -q else q)
  | Option.none => Option.none

/-- Python `float(x)` applied to an `additional_info` field value: an int
converts exactly; a string is parsed, raising `ValueError` when it is not a
numeral. -/
def pyFloat : FieldVal → Except PyErr Rat
  | .int n => .ok (n : Rat)
  | .str s =>
    match strToRat? s with
    | some q => .ok q
    | Option.none => .error .valueError

/-- Python truthiness of a `PyObj` (the `if (calibration[color]):` test). -/
def truthy : PyObj → Bool
  | .none => false
  | .bool b => b
  | .int n => n != 0
  | .float q => q != 0
  | .str s => s != ""
  | .list xs => !xs.isEmpty
  | .dict es => !es.isEmpty

/-- Subscript `v[k]` on an arbitrary Python object: only dicts support it
(`TypeError` otherwise), and a missing key raises `KeyError`. -/
def pySubscript (v : PyObj) (k : String) : Except PyErr PyObj :=
  match v with
  | .dict es =>
    match es.find? (fun e => e.1 == k) with
    | some e => .ok e.2
    | Option.none => .error .keyError
  | _ => .error .typeError

/-- Numeric coercion used by `float + obj`: ints, floats and bools are
numbers, everything else raises `TypeError`. -/
def pyAsNum : PyObj → Except PyErr Rat
  | .int n => .ok (n : Rat)
  | .float q => .ok q
  | .bool b => .ok (if b then 1 else 0)
  | _ => .error .typeError

/-!
## Number formatting

Models of the Python format specifiers used on lines 139-143:
`"{:.Nf}".format(x)` (fixed-point with `N` decimals, round-half-even) and
`"{:d}".format(rssi)` (plain integer).
-/

/-- Round a rational to the nearest integer, ties to even - the rounding
used by Python fixed-point formatting of doubles. -/
def roundHalfEven (q : Rat) : Int :=
  let f : Int := q.floor
  let frac : Rat := q - (f : Rat)
  if frac < 1/2 then f
  else if 1/2 < frac then f + 1
  else if f % 2 = 0 then f else f + 1

/-- Decimal digits of `x`, most significant first (fuelled helper). -/
def natDecimalAux : Nat → Nat → List Char
  | 0, _ => []
  | fuel+1, x =>
    if x < 10 then [Nat.digitChar x]
    else natDecimalAux fuel (x / 10) ++ [Nat.digitChar (x % 10)]

/-- Decimal digits of `x`, most significant first (`0` renders as `"0"`). -/
def natDecimal (x : Nat) : List Char := natDecimalAux (x + 1) x

/-- Exactly `n` decimal digits of `x`, zero-padded on the left. -/
def fixedDigits : Nat → Nat → List Char
  | 0, _ => []
  | k+1, x => fixedDigits k (x / 10) ++ [Nat.digitChar (x % 10)]

/-- `"{:.nf}".format(q)` as a character list: round `q * 10^n` half-to-even,
then print sign, integer part, a dot, and exactly `n` fractional digits. -/
def formatFixedChars (n : Nat) (q : Rat) : List Char :=
  let m := roundHalfEven (q * (10 : Rat) ^ n)
  let a := m.natAbs
  let signChars : List Char := if m < 0 then ['-'] else []
  if n = 0 then signChars ++ natDecimal a
  else signChars ++ natDecimal (a / 10 ^ n) ++ '.' :: fixedDigits n (a % 10 ^ n)

/-- `"{:.nf}".format(q)` as a string. -/
def formatFixed (n : Nat) (q : Rat) : String := String.mk (formatFixedChars n q)

/-- `"{:d}".format(n)` as a character list. -/
def formatIntChars (n : Int) : List Char :=
  (if n < 0 then ['-'] else []) ++ natDecimal n.natAbs

/-- `"{:d}".format(n)` as a string. -/
def formatInt (n : Int) : String := String.mk (formatIntChars n)

/-- Number of characters after the (last) decimal point of a rendered
number, `Option.none` when it has no decimal point at all. -/
def decimalsCount (l : List Char) : Option Nat :=
  if '.' ∈ l then some ((l.reverse.takeWhile (fun c => c != '.')).length)
  else Option.none

/-- `json.dumps` on a dict of string values, in insertion order (Python
3.7+ dicts preserve insertion order). -/
def jsonDumps (kvs : List (String × String)) : String :=
  "\x7b" ++ String.intercalate ", "
    (kvs.map (fun kv => "\"" ++ kv.1 ++ "\": \"" ++ kv.2 ++ "\"")) ++ "\x7d"

example : formatFixed 3 (989/1000) = "0.989" := by decide
example : formatFixed 1 (73 : Rat) = "73.0" := by decide
example : formatFixed 2 ((73 - 32) * 5 / 9 : Rat) = "22.78" := by decide
example : formatInt (-95) = "-95" := by decide

/-!
## `ast.literal_eval`

A model of the Python function `ast.literal_eval`, restricted to the literal forms the
script can meet in a calibration environment variable: `None`, `True`,
`False`, signed decimal int/float literals, quoted strings, lists, and
dicts with string keys. Any other input raises (modelled as `ValueError`,
standing for the Python `ValueError`/`SyntaxError`). Recursion is fuelled.
-/

/-- The single-quote character. -/
def quoteChar : Char := Char.ofNat 39

/-- The opening curly brace character. -/
def lbraceChar : Char := Char.ofNat 123

/-- The closing curly brace character. -/
def rbraceChar : Char := Char.ofNat 125

/-- Drop leading whitespace. -/
def skipWs (l : List Char) : List Char :=
  l.dropWhile (fun c => c = ' ' ∨ c = '\t' ∨ c = '\n' ∨ c = '\r')

/-- Read a quoted string body up to the closing quote `q` (no escapes). -/
def readStrBody (q : Char) (l : List Char) : Option (String × List Char) :=
  let content := l.takeWhile (fun c => c != q)
  let rest := l.dropWhile (fun c => c != q)
  match rest with
  | c :: r => if c = q then some (String.mk content, r) else Option.none
  | [] => Option.none

/-- Read a signed decimal numeral: int when it has no dot, float when it
does. Returns the Python object and the remaining input. -/
def readNum (l : List Char) : Option (PyObj × List Char) :=
  let signAndRest : Bool × List Char :=
    match l with
    | '-' :: t => (true, t)
    | '+' :: t => (false, t)
    | t => (false, t)
  let neg := signAndRest.1
  let body := signAndRest.2
  let ip := body.takeWhile Char.isDigit
  let rest1 := body.dropWhile Char.isDigit
  if ip.isEmpty then Option.none
  else
    match rest1 with
    | '.' :: r2 =>
      let fr := r2.takeWhile Char.isDigit
      let rest2 := r2.dropWhile Char.isDigit
      let q : Rat := (digitsToNat ip : Rat) + (digitsToNat fr : Rat) / (10 : Rat) ^ fr.length
      some (.float (if neg then -q else q), rest2)
    | _ =>
      let n : Int := (digitsToNat ip : Int)
      some (.int (if neg then -n else n), rest1)

mutual

/-- Fuelled parsing of one Python literal; returns the object and the
remaining input, or `Option.none` on a malformed literal. -/
def parseLit : Nat → List Char → Option (PyObj × List Char)
  | 0, _ => Option.none
  | fuel+1, l =>
    match skipWs l with
    | [] => Option.none
    | c :: rest =>
      if c = 'N' then
        match rest with
        | 'o' :: 'n' :: 'e' :: r => some (.none, r)
        | _ => Option.none
      else if c = 'T' then
        match rest with
        | 'r' :: 'u' :: 'e' :: r => some (.bool true, r)
        | _ => Option.none
      else if c = 'F' then
        match rest with
        | 'a' :: 'l' :: 's' :: 'e' :: r => some (.bool false, r)
        | _ => Option.none
      else if c = quoteChar ∨ c = '"' then
        match readStrBody c rest with
        | some (s, r) => some (.str s, r)
        | Option.none => Option.none
      else if c = '[' then
        match skipWs rest with
        | ']' :: r => some (.list [], r)
        | _ =>
          match parseItems fuel rest with
          | some (xs, r) => some (.list xs, r)
          | Option.none => Option.none
      else if c = lbraceChar then
        match skipWs rest with
        | d :: r => if d = rbraceChar then some (.dict [], r) else
          match parseEntries fuel rest with
          | some (es, r2) => some (.dict es, r2)
          | Option.none => Option.none
        | [] => Option.none
      else if c = '-' ∨ c = '+' ∨ c.isDigit then readNum (c :: rest)
      else Option.none

/-- Fuelled parsing of comma-separated list elements up to `]`. -/
def parseItems : Nat → List Char → Option (List PyObj × List Char)
  | 0, _ => Option.none
  | fuel+1, l =>
    match parseLit fuel l with
    | Option.none => Option.none
    | some (v, rest) =>
      match skipWs rest with
      | ',' :: r =>
        match parseItems fuel r with
        | some (xs, r2) => some (v :: xs, r2)
        | Option.none => Option.none
      | ']' :: r => some ([v], r)
      | _ => Option.none

/-- Fuelled parsing of comma-separated `key: value` dict entries up to the
closing brace; keys must be string literals. -/
def parseEntries : Nat → List Char → Option (List (String × PyObj) × List Char)
  | 0, _ => Option.none
  | fuel+1, l =>
    match parseLit fuel l with
    | some (.str k, rest) =>
      match skipWs rest with
      | ':' :: r =>
        match parseLit fuel r with
        | Option.none => Option.none
        | some (v, rest2) =>
          match skipWs rest2 with
          | ',' :: r2 =>
            match parseEntries fuel r2 with
            | some (es, r3) => some ((k, v) :: es, r3)
            | Option.none => Option.none
          | d :: r2 => if d = rbraceChar then some ([(k, v)], r2) else Option.none
          | [] => Option.none
      | _ => Option.none
    | _ => Option.none

end

/-- Model of `ast.literal_eval(s)`: parse a single literal with trailing
whitespace allowed; anything else raises (Python `ValueError`). -/
def literal_eval (s : String) : Except PyErr PyObj :=
  match parseLit (2 * s.length + 4) s.toList with
  | some (v, rest) => if (skipWs rest).isEmpty then .ok v else .error .valueError
  | Option.none => .error .valueError

/-!
## The data and pipeline of the script (lines 69-152 of `src/tilt2mqtt.py`)
-/

/-- Unique bluetooth IDs for Tilt sensors (lines 69-78). -/
def TILTS : List (String × String) :=
  [("a495bb10-c5b1-4b44-b512-1370f02d74de", "Red"),
   ("a495bb20-c5b1-4b44-b512-1370f02d74de", "Green"),
   ("a495bb30-c5b1-4b44-b512-1370f02d74de", "Black"),
   ("a495bb40-c5b1-4b44-b512-1370f02d74de", "Purple"),
   ("a495bb50-c5b1-4b44-b512-1370f02d74de", "Orange"),
   ("a495bb60-c5b1-4b44-b512-1370f02d74de", "Blue"),
   ("a495bb70-c5b1-4b44-b512-1370f02d74de", "Yellow"),
   ("a495bb80-c5b1-4b44-b512-1370f02d74de", "Pink")]

/-- The eight color labels, in registry order. -/
def tiltColors : List String :=
  ["Red", "Green", "Black", "Purple", "Orange", "Blue", "Yellow", "Pink"]

/-- The module-level `calibration` dict built at startup (lines 80-89):
for each color, `literal_eval(os.getenv("TILT_CAL_<COLOR>", "None"))`.
There is no `try` around it, so a `literal_eval` failure propagates and
aborts startup; `env` maps a variable name to its value when set. -/
def calibration (env : String → Option String) :
    Except PyErr (List (String × PyObj)) := do
  let red ← literal_eval ((env "TILT_CAL_RED").getD "None")
  let green ← literal_eval ((env "TILT_CAL_GREEN").getD "None")
  let black ← literal_eval ((env "TILT_CAL_BLACK").getD "None")
  let purple ← literal_eval ((env "TILT_CAL_PURPLE").getD "None")
  let orange ← literal_eval ((env "TILT_CAL_ORANGE").getD "None")
  let blue ← literal_eval ((env "TILT_CAL_BLUE").getD "None")
  let yellow ← literal_eval ((env "TILT_CAL_YELLOW").getD "None")
  let pink ← literal_eval ((env "TILT_CAL_PINK").getD "None")
  pure [("Red", red), ("Green", green), ("Black", black), ("Purple", purple),
        ("Orange", orange), ("Blue", blue), ("Yellow", yellow), ("Pink", pink)]

/-- Line 133: `temperature_celsius = (temperature_fahrenheit - 32) * 5/9`. -/
def tempCelsius (temperature_fahrenheit : Rat) : Rat :=
  (temperature_fahrenheit - 32) * 5 / 9

/-- Line 136: `degree_plato = 135.997*pow(sg, 3) - 630.272*pow(sg, 2)
+ 1111.14*sg - 616.868`. -/
def degreePlato (specific_gravity : Rat) : Rat :=
  135.997 * specific_gravity ^ 3 - 630.272 * specific_gravity ^ 2
    + 1111.14 * specific_gravity - 616.868

/-- One element of the `msgs` list handed to `publish.multiple` (line 147):
`("tilt/{}".format(color), json.dumps(data), 2, 1)` - topic, serialized
body, QoS, retain flag. -/
structure Msg where
  topic : String
  body : String
  qos : Nat
  retain : Nat
deriving DecidableEq, Repr

/-- Lines 119-130: read `major`/`minor` from `additional_info`, convert with
`float`, divide the minor by 1000, then look up `calibration[color]`; when
it is truthy add its `temp` and `sg` entries and use suffix `"cali"`, else
suffix `"uncali"`. Result: `(suffix, temperature_fahrenheit,
specific_gravity)`; errors are Python exceptions of those lines. -/
def decodeReading (cal : List (String × PyObj)) (color : String)
    (info : AdditionalInfo) : Except PyErr (String × Rat × Rat) := do
  let majorV ← getField info.major
  let temperature_fahrenheit ← pyFloat majorV
  let minorV ← getField info.minor
  let minorQ ← pyFloat minorV
  let specific_gravity := minorQ / 1000
  let calv ← dictGet cal color
  if truthy calv then do
    let tObj ← pySubscript calv "temp"
    let tOff ← pyAsNum tObj
    let sObj ← pySubscript calv "sg"
    let sOff ← pyAsNum sObj
    pure ("cali", temperature_fahrenheit + tOff, specific_gravity + sOff)
  else
    pure ("uncali", temperature_fahrenheit, specific_gravity)

/-- Lines 119-150, the second `try` body: decode, derive metrics, build the
`data` dict (lines 138-144) and the message list (line 147) handed to
`publish.multiple` (line 150). -/
def callbackBody (cal : List (String × PyObj)) (color : String) (rssi : Int)
    (info : AdditionalInfo) : Except PyErr (List Msg) := do
  let dec ← decodeReading cal color info
  let suffix := dec.1
  let temperature_fahrenheit := dec.2.1
  let specific_gravity := dec.2.2
  let temperature_celsius := tempCelsius temperature_fahrenheit
  let degree_plato := degreePlato specific_gravity
  let data : List (String × String) :=
    [("specific_gravity_" ++ suffix, formatFixed 3 specific_gravity),
     ("plato_" ++ suffix, formatFixed 2 degree_plato),
     ("temperature_celsius_" ++ suffix, formatFixed 2 temperature_celsius),
     ("temperature_fahrenheit_" ++ suffix, formatFixed 1 temperature_fahrenheit),
     ("rssi", formatInt rssi)]
  pure [⟨"tilt/" ++ color, jsonDumps data, 2, 1⟩]

/-- Lines 113-115: `uuid = additional_info["uuid"]; color = TILTS[uuid]` -
either subscript can raise `KeyError`. -/
def lookupColor (info : AdditionalInfo) : Except PyErr String := do
  let uuid ← getField info.uuid
  dictGet TILTS uuid

/-- Lines 108-117: `color` starts as `"unknown"`; the first `try` block
rebinds it from the registry, and its `except KeyError` logs the
"Unable to decode tilt color" error and leaves it `"unknown"`. -/
def resolveColor (info : AdditionalInfo) : String × List LogEvent :=
  match lookupColor info with
  | .ok c => (c, [])
  | .error _ => ("unknown", [LogEvent.errorColor info])

/-- Everything observable about one `callback` invocation: the `LOG.*`
events, the messages handed to `publish.multiple`, and an exception that
escaped the callback (`Option.none` when it returned normally). -/
structure CallbackResult where
  logs : List LogEvent
  published : List Msg
  exc : Option PyErr
deriving DecidableEq, Repr

/-- Lines 103-152, the whole callback: log the info event, resolve the
color (first `try`), then run the decode/format/publish block (second
`try`) whose `except KeyError` logs the "Device does not look like a Tilt
Hydrometer" error; any other exception escapes the callback. -/
def callback (cal : List (String × PyObj)) (bt_addr : String) (rssi : Int)
    (info : AdditionalInfo) : CallbackResult :=
  match callbackBody cal (resolveColor info).1 rssi info with
  | .ok msgs =>
    ⟨LogEvent.infoAdditional info :: (resolveColor info).2, msgs, Option.none⟩
  | .error .keyError =>
    ⟨LogEvent.infoAdditional info :: (resolveColor info).2
      ++ [LogEvent.errorHydro], [], Option.none⟩
  | .error e =>
    ⟨LogEvent.infoAdditional info :: (resolveColor info).2, [], some e⟩

/-- The observable world threaded through successive callback invocations
of the poll loop: all log events and all messages handed to the publisher
so far. The registry and calibration table are read-only, so this is the
only state a callback touches. -/
structure WorldState where
  logs : List LogEvent
  published : List Msg
deriving DecidableEq, Repr

/-- Process one advertisement event during a scan window: run `callback`
and append its observable output to the world. -/
def handleAdvertisement (cal : List (String × PyObj)) (w : WorldState)
    (bt_addr : String) (rssi : Int) (info : AdditionalInfo) : WorldState :=
  let r := callback cal bt_addr rssi info
  ⟨w.logs ++ r.logs, w.published ++ r.published⟩

/-!
## Concrete fixtures
-/

/-- The calibration dict when none of the eight variables is set: every
entry is `None` (the result of `literal_eval("None")`). -/
def calNoneAll : List (String × PyObj) :=
  [("Red", .none), ("Green", .none), ("Black", .none), ("Purple", .none),
   ("Orange", .none), ("Blue", .none), ("Yellow", .none), ("Pink", .none)]

/-- The sample advertisement from the commented-out self-test on line 202:
the Blue Tilt UUID with `major = 73`, `minor = 989`. -/
def infoBlue : AdditionalInfo :=
  ⟨some "a495bb60-c5b1-4b44-b512-1370f02d74de", some (.int 73), some (.int 989)⟩

/-- An advertisement whose UUID is not in the registry, with well-formed
numeric fields. -/
def infoUnknown : AdditionalInfo :=
  ⟨some "deadbeef-0000-0000-0000-000000000000", some (.int 73), some (.int 989)⟩

/-- An advertisement with a known UUID but a non-numeric `major` field. -/
def infoBadMajor : AdditionalInfo :=
  ⟨some "a495bb60-c5b1-4b44-b512-1370f02d74de", some (.str "abc"), some (.int 989)⟩

/-- An environment where `TILT_CAL_RED` holds a malformed literal and the
other variables are unset. -/
def badEnv : String → Option String :=
  fun name => if name = "TILT_CAL_RED" then some "garbage" else Option.none

/-- An environment where `TILT_CAL_BLUE` holds the well-formed pair
`temp = -2.0, sg = 0.002` (as a Python dict literal) and the other variables are unset. -/
def goodEnv : String → Option String :=
  fun name =>
    if name = "TILT_CAL_BLUE" then some "\x7b\x27temp\x27: -2.0, \x27sg\x27: 0.002\x7d"
    else Option.none

/-- The calibration dict produced by `goodEnv`: Blue has the offset pair,
everyone else is `None`. -/
def calBlueOnly : List (String × PyObj) :=
  [("Red", .none), ("Green", .none), ("Black", .none), ("Purple", .none),
   ("Orange", .none), ("Blue", .dict [("temp", .float (-2)), ("sg", .float (1/500))]),
   ("Yellow", .none), ("Pink", .none)]

/-!
## Helper lemmas
-/

/-- `Nat.digitChar` of a value below ten is a decimal digit character. -/
theorem digitChar_isDigit {m : Nat} (h : m < 10) : (Nat.digitChar m).isDigit = true := by
  interval_cases m <;> decide

/-- A digit character is not a decimal point. -/
theorem digit_ne_dot {c : Char} (h : c.isDigit = true) : (c != '.') = true := by
  rcases eq_or_ne c '.' with rfl | hne
  · simp at h
  · simpa [bne] using hne

/-- Every character produced by `natDecimalAux` is a digit. -/
theorem natDecimalAux_digits :
    ∀ fuel x : Nat, ∀ c ∈ natDecimalAux fuel x, c.isDigit = true := by
  intro fuel
  induction fuel with
  | zero => intro x c hc; simp [natDecimalAux] at hc
  | succ k ih =>
    intro x c hc
    rw [natDecimalAux] at hc
    by_cases hx : x < 10
    · simp [hx] at hc
      exact hc ▸ digitChar_isDigit hx
    · simp [hx] at hc
      rcases hc with hc | hc
      · exact ih _ c hc
      · exact hc ▸ digitChar_isDigit (Nat.mod_lt _ (by norm_num))

/-- Every character produced by `natDecimal` is a digit. -/
theorem natDecimal_digits (x : Nat) : ∀ c ∈ natDecimal x, c.isDigit = true :=
  natDecimalAux_digits _ x

/-- `fixedDigits n` always renders exactly `n` characters. -/
theorem fixedDigits_length : ∀ n x : Nat, (fixedDigits n x).length = n := by
  intro n
  induction n with
  | zero => intro x; rfl
  | succ k ih => intro x; simp [fixedDigits, ih]

/-- Every character produced by `fixedDigits` is a digit. -/
theorem fixedDigits_digits :
    ∀ n x : Nat, ∀ c ∈ fixedDigits n x, c.isDigit = true := by
  intro n
  induction n with
  | zero => intro x c hc; simp [fixedDigits] at hc
  | succ k ih =>
    intro x c hc
    simp [fixedDigits] at hc
    rcases hc with hc | hc
    · exact ih _ c hc
    · exact hc ▸ digitChar_isDigit (Nat.mod_lt _ (by norm_num))

/-- `takeWhile (· != '.')` of `l ++ '.' :: r` is `l` when `l` has no dot. -/
theorem takeWhile_until_dot :
    ∀ l r : List Char, (∀ c ∈ l, (c != '.') = true) →
      (l ++ '.' :: r).takeWhile (fun c => c != '.') = l := by
  intro l
  induction l with
  | nil => intro r _; simp [List.takeWhile]
  | cons a t ih =>
    intro r h
    have ha := h a (by simp)
    simp only [List.cons_append, List.takeWhile_cons, ha, if_true]
    simp only [List.cons.injEq, true_and]
    exact ih r (fun c hc => h c (by simp [hc]))

/-- `decimalsCount` of `L ++ '.' :: D` with a dot-free tail `D` is the
length of `D`. -/
theorem decimalsCount_append_dot (L D : List Char)
    (hD : ∀ c ∈ D, (c != '.') = true) :
    decimalsCount (L ++ '.' :: D) = some D.length := by
  unfold decimalsCount
  rw [if_pos (by simp)]
  have hrev : (L ++ '.' :: D).reverse = D.reverse ++ '.' :: L.reverse := by
    simp [List.reverse_append]
  rw [hrev, takeWhile_until_dot _ _ (fun c hc => hD c (List.mem_reverse.mp hc)),
    List.length_reverse]

/-- `decimalsCount` of a dot-free list is `Option.none`. -/
theorem decimalsCount_no_dot (l : List Char) (h : '.' ∉ l) :
    decimalsCount l = Option.none := by
  unfold decimalsCount
  rw [if_neg h]

/-- A fixed-point format with a positive number of decimals renders exactly
that many digits after the decimal point. -/
theorem decimalsCount_formatFixedChars (n : Nat) (hn : 0 < n) (q : Rat) :
    decimalsCount (formatFixedChars n q) = some n := by
  unfold formatFixedChars
  rw [if_neg (by omega)]
  rw [decimalsCount_append_dot _ _
    (fun c hc => digit_ne_dot (fixedDigits_digits _ _ c hc))]
  rw [fixedDigits_length]

/-- An integer format never renders a decimal point. -/
theorem decimalsCount_formatIntChars (n : Int) :
    decimalsCount (formatIntChars n) = Option.none := by
  unfold formatIntChars
  apply decimalsCount_no_dot
  intro hmem
  rcases List.mem_append.mp hmem with hs | hd
  · split at hs <;> simp_all
  · have := natDecimal_digits _ _ hd
    simp at this

/-- A successful `dictGet` means the key occurs in the dict. -/
theorem dictGet_ok_mem {α : Type} {d : List (String × α)} {k : String} {v : α}
    (h : dictGet d k = .ok v) : k ∈ d.map Prod.fst := by
  unfold dictGet at h
  cases hf : d.find? (fun e => e.1 == k) with
  | none => rw [hf] at h; exact absurd h (by simp)
  | some e =>
    have hk : e.1 = k := by simpa using List.find?_some hf
    have hmem := List.mem_of_find?_eq_some hf
    exact hk ▸ List.mem_map_of_mem Prod.fst hmem

/-- `dictGet` on a key that is not in the dict raises `KeyError`. -/
theorem dictGet_not_mem {α : Type} {d : List (String × α)} {k : String}
    (h : k ∉ d.map Prod.fst) : dictGet d k = .error .keyError := by
  unfold dictGet
  have hf : d.find? (fun e => e.1 == k) = Option.none := by
    rw [List.find?_eq_none]
    intro e he
    simp only [beq_iff_eq]
    exact fun hek => h (hek ▸ List.mem_map_of_mem Prod.fst he)
  rw [hf]

/-- Splitting a successful `Except` bind into its two successful stages. -/
theorem exceptBind_ok {ε α β : Type} {x : Except ε α} {f : α → Except ε β}
    {b : β} (h : (x >>= f) = .ok b) : ∃ a, x = .ok a ∧ f a = .ok b := by
  cases x with
  | error e => simp [Bind.bind, Except.bind] at h
  | ok a => exact ⟨a, rfl, by simpa [Bind.bind, Except.bind] using h⟩

/-- Whatever the environment, a successful startup produces a calibration
dict whose keys are exactly the eight registry colors, in order. -/
theorem calibration_keys {env : String → Option String}
    {cal : List (String × PyObj)} (h : calibration env = .ok cal) :
    cal.map Prod.fst = tiltColors := by
  unfold calibration at h
  obtain ⟨red, -, h⟩ := exceptBind_ok h
  obtain ⟨green, -, h⟩ := exceptBind_ok h
  obtain ⟨black, -, h⟩ := exceptBind_ok h
  obtain ⟨purple, -, h⟩ := exceptBind_ok h
  obtain ⟨orange, -, h⟩ := exceptBind_ok h
  obtain ⟨blue, -, h⟩ := exceptBind_ok h
  obtain ⟨yellow, -, h⟩ := exceptBind_ok h
  obtain ⟨pink, -, h⟩ := exceptBind_ok h
  simp only [pure, Except.pure, Except.ok.injEq] at h
  subst h
  rfl

/-- A successful decode carries suffix `"cali"` or `"uncali"` and nothing
else. -/
theorem decodeReading_ok_suffix {cal : List (String × PyObj)} {color : String}
    {info : AdditionalInfo} {d : String × Rat × Rat}
    (h : decodeReading cal color info = .ok d) :
    d.1 = "cali" ∨ d.1 = "uncali" := by
  unfold decodeReading at h
  obtain ⟨majorV, -, h⟩ := exceptBind_ok h
  obtain ⟨tf, -, h⟩ := exceptBind_ok h
  obtain ⟨minorV, -, h⟩ := exceptBind_ok h
  obtain ⟨mq, -, h⟩ := exceptBind_ok h
  obtain ⟨calv, -, h⟩ := exceptBind_ok h
  split at h
  · obtain ⟨t1, -, h⟩ := exceptBind_ok h
    obtain ⟨t2, -, h⟩ := exceptBind_ok h
    obtain ⟨t3, -, h⟩ := exceptBind_ok h
    obtain ⟨t4, -, h⟩ := exceptBind_ok h
    simp only [pure, Except.pure, Except.ok.injEq] at h
    left; rw [← h]
  · simp only [pure, Except.pure, Except.ok.injEq] at h
    right; rw [← h]

/-- A successful decode means the color was a key of the calibration dict. -/
theorem decodeReading_ok_color_mem {cal : List (String × PyObj)}
    {color : String} {info : AdditionalInfo} {d : String × Rat × Rat}
    (h : decodeReading cal color info = .ok d) :
    color ∈ cal.map Prod.fst := by
  unfold decodeReading at h
  obtain ⟨majorV, -, h⟩ := exceptBind_ok h
  obtain ⟨tf, -, h⟩ := exceptBind_ok h
  obtain ⟨minorV, -, h⟩ := exceptBind_ok h
  obtain ⟨mq, -, h⟩ := exceptBind_ok h
  obtain ⟨calv, hcal, -⟩ := exceptBind_ok h
  exact dictGet_ok_mem hcal

/-- Shape of a successful `callbackBody`: exactly one message, with the
`tilt/{color}` topic, the five formatted `data` fields serialized by
`json.dumps`, QoS 2 and the retain flag set. -/
theorem callbackBody_ok_shape {cal : List (String × PyObj)} {color : String}
    {rssi : Int} {info : AdditionalInfo} {msgs : List Msg}
    (h : callbackBody cal color rssi info = .ok msgs) :
    ∃ d, decodeReading cal color info = .ok d ∧
      msgs = [⟨"tilt/" ++ color,
        jsonDumps
          [("specific_gravity_" ++ d.1, formatFixed 3 d.2.2),
           ("plato_" ++ d.1, formatFixed 2 (degreePlato d.2.2)),
           ("temperature_celsius_" ++ d.1, formatFixed 2 (tempCelsius d.2.1)),
           ("temperature_fahrenheit_" ++ d.1, formatFixed 1 d.2.1),
           ("rssi", formatInt rssi)], 2, 1⟩] := by
  unfold callbackBody at h
  obtain ⟨d, hd, h⟩ := exceptBind_ok h
  simp only [pure, Except.pure, Except.ok.injEq] at h
  exact ⟨d, hd, h.symm⟩

/-- `callbackBody` is the decode followed by pure formatting: a successful
decode yields exactly the formatted message list. -/
theorem callbackBody_of_decode {cal : List (String × PyObj)} {color : String}
    {rssi : Int} {info : AdditionalInfo} {d : String × Rat × Rat}
    (hd : decodeReading cal color info = .ok d) :
    callbackBody cal color rssi info = .ok
      [⟨"tilt/" ++ color,
        jsonDumps
          [("specific_gravity_" ++ d.1, formatFixed 3 d.2.2),
           ("plato_" ++ d.1, formatFixed 2 (degreePlato d.2.2)),
           ("temperature_celsius_" ++ d.1, formatFixed 2 (tempCelsius d.2.1)),
           ("temperature_fahrenheit_" ++ d.1, formatFixed 1 d.2.1),
           ("rssi", formatInt rssi)], 2, 1⟩] := by
  unfold callbackBody
  rw [hd]
  rfl

/-- Case analysis of one whole `callback` run, in terms of the second `try`
outcome of the second try body. -/
theorem callback_cases (cal : List (String × PyObj)) (a : String) (r : Int)
    (info : AdditionalInfo) :
    (∃ msgs, callbackBody cal (resolveColor info).1 r info = .ok msgs ∧
      callback cal a r info =
        ⟨LogEvent.infoAdditional info :: (resolveColor info).2, msgs, Option.none⟩) ∨
    (callbackBody cal (resolveColor info).1 r info = .error .keyError ∧
      callback cal a r info =
        ⟨LogEvent.infoAdditional info :: (resolveColor info).2
          ++ [LogEvent.errorHydro], [], Option.none⟩) ∨
    (∃ e, e ≠ PyErr.keyError ∧
      callbackBody cal (resolveColor info).1 r info = .error e ∧
      callback cal a r info =
        ⟨LogEvent.infoAdditional info :: (resolveColor info).2, [], some e⟩) := by
  unfold callback
  cases hb : callbackBody cal (resolveColor info).1 r info with
  | ok msgs => exact Or.inl ⟨msgs, rfl, rfl⟩
  | error e =>
    cases e with
    | keyError => exact Or.inr (Or.inl ⟨rfl, rfl⟩)
    | valueError => exact Or.inr (Or.inr ⟨.valueError, by simp, rfl, rfl⟩)
    | typeError => exact Or.inr (Or.inr ⟨.typeError, by simp, rfl, rfl⟩)

/-- When the color resolves and the body succeeds, `callback` logs exactly
the info event and publishes the messages of the body. -/
theorem callback_ok {cal : List (String × PyObj)} {a : String} {r : Int}
    {info : AdditionalInfo} {msgs : List Msg}
    (h : callbackBody cal (resolveColor info).1 r info = .ok msgs) :
    callback cal a r info =
      ⟨LogEvent.infoAdditional info :: (resolveColor info).2, msgs,
       Option.none⟩ := by
  unfold callback
  rw [h]

/-- Startup with no calibration variables set: every color maps to `None`. -/
theorem calibration_none_env :
    calibration (fun _ => Option.none) = .ok calNoneAll := rfl

/-- The message the script publishes for the line-202 sample advertisement
when Blue is uncalibrated. -/
def msgBlueUncali : Msg :=
  ⟨"tilt/Blue",
   jsonDumps
     [("specific_gravity_uncali", "0.989"), ("plato_uncali", "-2.87"),
      ("temperature_celsius_uncali", "22.78"),
      ("temperature_fahrenheit_uncali", "73.0"), ("rssi", "-95")],
   2, 1⟩

/-!
## The claims
-/

/-- C1: for an advertisement that resolves to a registry entry and whose
major/minor fields convert under `float`, the decoder computes
`temperature_fahrenheit = float(major)` and
`specific_gravity = float(minor)/1000`; when a calibration pair is
configured for the device it adds the temperature offset (`temp`) and the
gravity offset (`sg`) and marks the reading calibrated (suffix `"cali"`),
otherwise the reading is uncalibrated (suffix `"uncali"`). -/
theorem C1_decoder_calibration (cal : List (String × PyObj)) (color : String)
    (info : AdditionalInfo) (vM vm : FieldVal) (M m tOff sOff : Rat)
    (hM : info.major = some vM) (hMF : pyFloat vM = .ok M)
    (hm : info.minor = some vm) (hmF : pyFloat vm = .ok m) :
    (dictGet cal color =
        .ok (PyObj.dict [("temp", PyObj.float tOff), ("sg", PyObj.float sOff)]) →
      decodeReading cal color info = .ok ("cali", M + tOff, m / 1000 + sOff)) ∧
    (dictGet cal color = .ok PyObj.none →
      decodeReading cal color info = .ok ("uncali", M, m / 1000)) := by
  constructor <;> intro hcal <;>
    simp [decodeReading, hM, hm, hMF, hmF, hcal, getField, bind, Except.bind,
      truthy, pySubscript, pyAsNum, pure, Except.pure]

/-- Witness for C1: the Blue Tilt sample with the calibration pair of the spec
(`temp = -2.0`, `sg = 0.002`) decodes to 71.0 F and 0.991 calibrated, and
uncalibrated to 73.0 F and 0.989. -/
theorem C1_decoder_calibration_witness :
    decodeReading calBlueOnly "Blue" infoBlue = .ok ("cali", 73 + (-2), 989 / 1000 + 1 / 500) ∧
    decodeReading calNoneAll "Blue" infoBlue = .ok ("uncali", 73, 989 / 1000) :=
  ⟨(C1_decoder_calibration calBlueOnly "Blue" infoBlue (.int 73) (.int 989)
      73 989 (-2) (1/500) rfl rfl rfl rfl).1 rfl,
   (C1_decoder_calibration calNoneAll "Blue" infoBlue (.int 73) (.int 989)
      73 989 (-2) (1/500) rfl rfl rfl rfl).2 rfl⟩

/-- C2: the derived metrics are computed by exactly
`celsius = (fahrenheit - 32) * 5/9` and
`plato = 135.997 sg^3 - 630.272 sg^2 + 1111.14 sg - 616.868`, as pure
functions of the decoded values. -/
theorem C2_metrics_formulas (f sg : Rat) :
    tempCelsius f = (f - 32) * 5 / 9 ∧
    degreePlato sg =
      135.997 * sg ^ 3 - 630.272 * sg ^ 2 + 1111.14 * sg - 616.868 :=
  ⟨rfl, rfl⟩

/-- C8: every message handed to the publish interface has QoS fixed at 2
and the retain flag fixed on (the literal `1` in the tuple). -/
theorem C8_qos_retain (cal : List (String × PyObj)) (a : String) (r : Int)
    (info : AdditionalInfo) :
    ∀ msg ∈ (callback cal a r info).published, msg.qos = 2 ∧ msg.retain = 1 := by
  rcases callback_cases cal a r info with ⟨msgs, hb, hc⟩ | ⟨-, hc⟩ | ⟨e, -, -, hc⟩
  · intro msg hm
    rw [hc] at hm
    obtain ⟨d, -, rfl⟩ := callbackBody_ok_shape hb
    simp at hm
    rw [hm]
    exact ⟨rfl, rfl⟩
  · intro msg hm
    rw [hc] at hm
    simp at hm
  · intro msg hm
    rw [hc] at hm
    simp at hm

set_option maxRecDepth 4000 in
/-- Witness for C8: the Blue sample message carries QoS 2 and retain 1. -/
theorem C8_qos_retain_witness : msgBlueUncali.qos = 2 ∧ msgBlueUncali.retain = 1 :=
  C8_qos_retain calNoneAll "ea:ca:eb:f0:0f:b5" (-95) infoBlue msgBlueUncali
    (by decide)

/-- C9: processing the same advertisement twice, from any prior world
state, hands the publisher identical payload lists both times - the
decode/format pipeline is a pure function of the advertisement and the
(read-only) calibration table. -/
theorem C9_decode_deterministic (cal : List (String × PyObj)) (w : WorldState)
    (a : String) (r : Int) (info : AdditionalInfo) :
    (handleAdvertisement cal w a r info).published.drop w.published.length =
      (callback cal a r info).published ∧
    (handleAdvertisement cal (handleAdvertisement cal w a r info) a r
        info).published.drop
        (handleAdvertisement cal w a r info).published.length =
      (callback cal a r info).published := by
  constructor <;> simp [handleAdvertisement, List.drop_left]

/-- C10: under any calibration table produced by startup, every message
that reaches the publish call has topic `tilt/{c}` for one of the eight
registry color labels; an advertisement whose UUID did not resolve gets
color `"unknown"`, whose calibration lookup raises a `KeyError` that is
caught before the publish call. -/
theorem C10_topics_registry (env : String → Option String)
    (cal : List (String × PyObj)) (hstart : calibration env = .ok cal)
    (a : String) (r : Int) (info : AdditionalInfo) :
    ∀ msg ∈ (callback cal a r info).published,
      ∃ c ∈ tiltColors, msg.topic = "tilt/" ++ c := by
  intro msg hm
  rcases callback_cases cal a r info with ⟨msgs, hb, hc⟩ | ⟨-, hc⟩ | ⟨e, -, -, hc⟩
  · rw [hc] at hm
    obtain ⟨d, hd, rfl⟩ := callbackBody_ok_shape hb
    have hcolor : (resolveColor info).1 ∈ cal.map Prod.fst :=
      decodeReading_ok_color_mem hd
    rw [calibration_keys hstart] at hcolor
    simp at hm
    rw [hm]
    exact ⟨(resolveColor info).1, hcolor, rfl⟩
  · rw [hc] at hm
    simp at hm
  · rw [hc] at hm
    simp at hm

set_option maxRecDepth 4000 in
/-- Witness for C10: the topic of the Blue sample message is `tilt/Blue`. -/
theorem C10_topics_registry_witness :
    ∃ c ∈ tiltColors, msgBlueUncali.topic = "tilt/" ++ c :=
  C10_topics_registry (fun _ => Option.none) calNoneAll calibration_none_env
    "ea:ca:eb:f0:0f:b5" (-95) infoBlue msgBlueUncali (by decide)

set_option maxRecDepth 4000 in
/-- Counterexample to C3 as stated: an unknown UUID with numeric fields
produces zero payloads but THREE log events (one info and two errors), not
exactly one: the color error on line 117 and, because
`calibration["unknown"]` raises a caught `KeyError`, the hydrometer error
on line 152 as well. -/
theorem C3_counterexample :
    (callback calNoneAll "00:11:22:33:44:55" (-95) infoUnknown).published = [] ∧
    (callback calNoneAll "00:11:22:33:44:55" (-95) infoUnknown).logs =
      [LogEvent.infoAdditional infoUnknown, LogEvent.errorColor infoUnknown,
       LogEvent.errorHydro] ∧
    (callback calNoneAll "00:11:22:33:44:55" (-95) infoUnknown).logs.length ≠ 1 ∧
    (callback calNoneAll "00:11:22:33:44:55" (-95) infoUnknown).logs.countP
      (fun e => LogEvent.isError e) = 2 := by decide

/-- C3 amended: for every advertisement whose identity is not in the
registry (and whose numeric fields are well-formed), the pipeline produces
zero payloads and continues without an exception - but it logs three
events (the info line plus TWO errors: color and hydrometer), not one. -/
theorem C3_amended (env : String → Option String) (cal : List (String × PyObj))
    (hstart : calibration env = .ok cal) (a : String) (r : Int)
    (info : AdditionalInfo) (hu : lookupColor info = .error .keyError)
    (M m : Int) (hM : info.major = some (.int M))
    (hm : info.minor = some (.int m)) :
    (callback cal a r info).published = [] ∧
    (callback cal a r info).logs =
      [LogEvent.infoAdditional info, LogEvent.errorColor info,
       LogEvent.errorHydro] ∧
    (callback cal a r info).logs.countP (fun e => LogEvent.isError e) = 2 ∧
    (callback cal a r info).exc = Option.none := by
  have hres : resolveColor info = ("unknown", [LogEvent.errorColor info]) := by
    unfold resolveColor
    rw [hu]
  have hunk : dictGet cal "unknown" = .error .keyError := by
    apply dictGet_not_mem
    rw [calibration_keys hstart]
    decide
  have hbody : callbackBody cal "unknown" r info = .error .keyError := by
    unfold callbackBody decodeReading
    simp [hM, hm, getField, pyFloat, bind, Except.bind, hunk]
  unfold callback
  rw [hres]
  simp [hbody, List.countP_append, List.countP_cons, List.countP_nil,
    LogEvent.isError]

set_option maxRecDepth 4000 in
/-- Witness for the amended C3: the concrete unknown-UUID advertisement. -/
theorem C3_amended_witness :
    (callback calNoneAll "00:11:22:33:44:55" (-95) infoUnknown).published = [] ∧
    (callback calNoneAll "00:11:22:33:44:55" (-95) infoUnknown).logs =
      [LogEvent.infoAdditional infoUnknown, LogEvent.errorColor infoUnknown,
       LogEvent.errorHydro] ∧
    (callback calNoneAll "00:11:22:33:44:55" (-95) infoUnknown).logs.countP
      (fun e => LogEvent.isError e) = 2 ∧
    (callback calNoneAll "00:11:22:33:44:55" (-95) infoUnknown).exc =
      Option.none :=
  C3_amended (fun _ => Option.none) calNoneAll calibration_none_env
    "00:11:22:33:44:55" (-95) infoUnknown (by decide) 73 989 rfl rfl

/-- C4: every successful decode publishes exactly one message: topic
`tilt/{label}`, body a flat map (serialized with values as strings) whose
keys are `specific_gravity_{suffix}` rendered to exactly 3 decimals,
`plato_{suffix}` to 2, `temperature_celsius_{suffix}` to 2,
`temperature_fahrenheit_{suffix}` to 1, and `rssi` an integer with no
suffix and no decimal point, where the suffix is `"cali"` when calibrated
and `"uncali"` otherwise. -/
theorem C4_payload_format (cal : List (String × PyObj)) (color : String)
    (rssi : Int) (info : AdditionalInfo) (msgs : List Msg)
    (h : callbackBody cal color rssi info = .ok msgs) :
    ∃ suffix tf sg, (suffix = "cali" ∨ suffix = "uncali") ∧
      msgs = [⟨"tilt/" ++ color,
        jsonDumps
          [("specific_gravity_" ++ suffix, formatFixed 3 sg),
           ("plato_" ++ suffix, formatFixed 2 (degreePlato sg)),
           ("temperature_celsius_" ++ suffix, formatFixed 2 (tempCelsius tf)),
           ("temperature_fahrenheit_" ++ suffix, formatFixed 1 tf),
           ("rssi", formatInt rssi)], 2, 1⟩] ∧
      decimalsCount (formatFixedChars 3 sg) = some 3 ∧
      decimalsCount (formatFixedChars 2 (degreePlato sg)) = some 2 ∧
      decimalsCount (formatFixedChars 2 (tempCelsius tf)) = some 2 ∧
      decimalsCount (formatFixedChars 1 tf) = some 1 ∧
      decimalsCount (formatIntChars rssi) = Option.none := by
  obtain ⟨d, hd, rfl⟩ := callbackBody_ok_shape h
  exact ⟨d.1, d.2.1, d.2.2, decodeReading_ok_suffix hd, rfl,
    decimalsCount_formatFixedChars 3 (by norm_num) _,
    decimalsCount_formatFixedChars 2 (by norm_num) _,
    decimalsCount_formatFixedChars 2 (by norm_num) _,
    decimalsCount_formatFixedChars 1 (by norm_num) _,
    decimalsCount_formatIntChars rssi⟩

set_option maxRecDepth 4000 in
/-- Witness for C4: the Blue sample run publishes `msgBlueUncali`. -/
theorem C4_payload_format_witness :
    ∃ suffix tf sg, (suffix = "cali" ∨ suffix = "uncali") ∧
      [msgBlueUncali] = [⟨"tilt/" ++ "Blue",
        jsonDumps
          [("specific_gravity_" ++ suffix, formatFixed 3 sg),
           ("plato_" ++ suffix, formatFixed 2 (degreePlato sg)),
           ("temperature_celsius_" ++ suffix, formatFixed 2 (tempCelsius tf)),
           ("temperature_fahrenheit_" ++ suffix, formatFixed 1 tf),
           ("rssi", formatInt (-95))], 2, 1⟩] ∧
      decimalsCount (formatFixedChars 3 sg) = some 3 ∧
      decimalsCount (formatFixedChars 2 (degreePlato sg)) = some 2 ∧
      decimalsCount (formatFixedChars 2 (tempCelsius tf)) = some 2 ∧
      decimalsCount (formatFixedChars 1 tf) = some 1 ∧
      decimalsCount (formatIntChars (-95)) = Option.none :=
  C4_payload_format calNoneAll "Blue" (-95) infoBlue [msgBlueUncali] (by decide)

set_option maxRecDepth 8000 in
/-- Counterexample to C5 as stated: at the very input of the claim (Blue device,
no calibration, major=73, minor=989) the decoded values and suffix are as
claimed, but the plato value of the exact cubic is about -2.87, not -2.53:
it is below -2.8 and the payload renders it as `"-2.87"`. -/
theorem C5_counterexample :
    decodeReading calNoneAll "Blue" infoBlue = .ok ("uncali", 73, 989 / 1000) ∧
    degreePlato (989 / 1000) < -2.8 ∧
    formatFixed 2 (degreePlato (989 / 1000)) = "-2.87" ∧
    formatFixed 2 (degreePlato (989 / 1000)) ≠ "-2.53" := by decide

set_option maxRecDepth 8000 in
/-- C5 amended: for the Blue device with no calibration and input
major=73, minor=989: fahrenheit=73.0, sg=0.989, suffix `"uncali"`, celsius
about 22.78 (rendered `"22.78"`), plato about -2.87 per the exact cubic
(rendered `"-2.87"`), and the payload topic is `tilt/Blue`. -/
theorem C5_amended :
    calibration (fun _ => Option.none) = .ok calNoneAll ∧
    decodeReading calNoneAll "Blue" infoBlue = .ok ("uncali", 73, 989 / 1000) ∧
    (callback calNoneAll "ea:ca:eb:f0:0f:b5" (-95) infoBlue).published =
      [msgBlueUncali] ∧
    (2277 / 100 : Rat) < tempCelsius 73 ∧ tempCelsius 73 < 2279 / 100 ∧
    formatFixed 2 (tempCelsius 73) = "22.78" ∧
    (-288 / 100 : Rat) < degreePlato (989 / 1000) ∧
    degreePlato (989 / 1000) < -287 / 100 ∧
    formatFixed 2 (degreePlato (989 / 1000)) = "-2.87" ∧
    msgBlueUncali.topic = "tilt/" ++ "Blue" := by
  refine ⟨calibration_none_env, ?_, ?_, ?_, ?_, ?_, ?_, ?_, ?_, ?_⟩ <;> decide

set_option maxRecDepth 8000 in
/-- Counterexample to C6 as stated: a non-numeric `major` (the string
`"abc"`) on a known device does NOT get logged and dropped - `float`
raises a `ValueError`, which the `except KeyError` handler does not catch,
so the exception escapes the callback and no error is logged at all. -/
theorem C6_counterexample :
    (callback calNoneAll "00:11:22:33:44:55" (-95) infoBadMajor).exc =
      some .valueError ∧
    (callback calNoneAll "00:11:22:33:44:55" (-95) infoBadMajor).published = [] ∧
    (callback calNoneAll "00:11:22:33:44:55" (-95) infoBadMajor).logs.countP
      (fun e => LogEvent.isError e) = 0 := by decide

/-- C6 amended: a MISSING major or minor field raises a `KeyError`, which
is caught: the hydrometer error is logged, the event is dropped and the
callback returns normally. A present but NON-NUMERIC (string) field
instead raises a `ValueError` from `float`, which the `except KeyError`
handler does not catch: nothing is logged by that handler and the
exception escapes the callback. -/
theorem C6_amended (cal : List (String × PyObj)) (a : String) (r : Int)
    (info : AdditionalInfo) :
    (info.major = Option.none →
      (callback cal a r info).published = [] ∧
      (callback cal a r info).exc = Option.none ∧
      LogEvent.errorHydro ∈ (callback cal a r info).logs) ∧
    (∀ M : Int, info.major = some (.int M) → info.minor = Option.none →
      (callback cal a r info).published = [] ∧
      (callback cal a r info).exc = Option.none ∧
      LogEvent.errorHydro ∈ (callback cal a r info).logs) ∧
    (∀ s : String, info.major = some (.str s) → strToRat? s = Option.none →
      (callback cal a r info).published = [] ∧
      (callback cal a r info).exc = some .valueError ∧
      LogEvent.errorHydro ∉ (callback cal a r info).logs) := by
  refine ⟨fun h1 => ?_, fun M h1 h2 => ?_, fun s h1 h2 => ?_⟩
  · have hbody : callbackBody cal (resolveColor info).1 r info =
        .error .keyError := by
      unfold callbackBody decodeReading
      simp [h1, getField, bind, Except.bind]
    unfold callback
    simp [hbody]
  · have hbody : callbackBody cal (resolveColor info).1 r info =
        .error .keyError := by
      unfold callbackBody decodeReading
      simp [h1, h2, getField, pyFloat, bind, Except.bind]
    unfold callback
    simp [hbody]
  · have hbody : callbackBody cal (resolveColor info).1 r info =
        .error .valueError := by
      unfold callbackBody decodeReading
      simp [h1, h2, getField, pyFloat, bind, Except.bind]
    unfold callback
    simp only [hbody]
    refine ⟨by simp, by simp, ?_⟩
    unfold resolveColor
    cases lookupColor info with
    | ok c => simp
    | error e => simp

/-- A known-UUID advertisement whose `major` key is absent. -/
def infoNoMajor : AdditionalInfo :=
  ⟨some "a495bb60-c5b1-4b44-b512-1370f02d74de", Option.none, some (.int 989)⟩

set_option maxRecDepth 4000 in
/-- Witness for the amended C6: a missing `major` is logged and dropped,
while the string `"abc"` in `major` escapes as an uncaught `ValueError`. -/
theorem C6_amended_witness :
    ((callback calNoneAll "00:11:22:33:44:55" (-95) infoNoMajor).published = [] ∧
     (callback calNoneAll "00:11:22:33:44:55" (-95) infoNoMajor).exc =
       Option.none ∧
     LogEvent.errorHydro ∈
       (callback calNoneAll "00:11:22:33:44:55" (-95) infoNoMajor).logs) ∧
    ((callback calNoneAll "00:11:22:33:44:55" (-95) infoBadMajor).published = [] ∧
     (callback calNoneAll "00:11:22:33:44:55" (-95) infoBadMajor).exc =
       some .valueError ∧
     LogEvent.errorHydro ∉
       (callback calNoneAll "00:11:22:33:44:55" (-95) infoBadMajor).logs) :=
  ⟨(C6_amended calNoneAll "00:11:22:33:44:55" (-95) infoNoMajor).1 rfl,
   (C6_amended calNoneAll "00:11:22:33:44:55" (-95) infoBadMajor).2.2 "abc"
     rfl rfl⟩

/-- Counterexample to C7 as stated: a malformed calibration value is NOT
treated like an absent one - with `TILT_CAL_RED="garbage"` the module-level
`literal_eval` raises and startup fails, while with all variables absent it
succeeds with every device uncalibrated. -/
theorem C7_counterexample :
    calibration badEnv = .error .valueError ∧
    calibration (fun _ => Option.none) = .ok calNoneAll :=
  ⟨rfl, rfl⟩

/-- C7 amended: an ABSENT calibration variable falls back to `None`
(uncalibrated), and a well-formed pair is parsed; but a malformed value
that `literal_eval` cannot parse raises at startup, so startup fails
rather than falling back. -/
theorem C7_amended :
    calibration (fun _ => Option.none) = .ok calNoneAll ∧
    literal_eval "None" = .ok PyObj.none ∧
    calibration goodEnv = .ok calBlueOnly ∧
    literal_eval "garbage" = .error .valueError ∧
    calibration badEnv = .error .valueError :=
  ⟨rfl, rfl, rfl, rfl, rfl⟩
